import Mathlib

set_option maxRecDepth 10000

/-!
Verification model of the Azure Sphere I2C scanner (`src/i2c_scanner/main.c`).

The program is embedded shallowly.  Calls into the vendor I2C driver
(`I2CMaster_Open`, `I2CMaster_SetBusSpeed`, `I2CMaster_SetTimeout`,
`I2CMaster_Read`, `close`) and the diagnostic log (`Log_Debug`) are recorded
as events in a trace; the driver's return values are supplied by an
environment oracle `BusEnv`.  Machine integers are modelled as `Nat`/`Int`
(all values involved are small: 7-bit addresses, small fds, small return
codes, so no overflow is reachable).
-/

/-- Trace events: one per externally visible action of the program.
`openBus`, `setSpeed`, `setTimeout` and `readProbe` record the call together
with the return value the environment supplied; `log` records one
`Log_Debug` output; `closeFd` records a `close` call; `sigaction` records
the handler registration in `InitPeripheralsAndHandlers`; `pollTerm`
records a read of the `terminationRequired` flag by the main flow. -/
inductive Event where
  | sigaction : Event
  | pollTerm (b : Bool) : Event
  | log (s : String) : Event
  | openBus (bus : Nat) (ret : Int) : Event
  | setSpeed (fd : Int) (speed : Nat) (ret : Int) : Event
  | setTimeout (fd : Int) (ms : Nat) (ret : Int) : Event
  | readProbe (fd : Int) (addr : Nat) (ret : Int) : Event
  | closeFd (fd : Int) : Event
deriving DecidableEq

/-- `#define I2C_BUS_TIMEOUT_MS 100` (main.c line 22). -/
def I2C_BUS_TIMEOUT_MS : Nat := 100

/-- `#define STR_NO_DETECTION ".. "` (main.c line 25). -/
def STR_NO_DETECTION : String := ".. "

/-- `#define STR_DETECTION "[] "` (main.c line 26). -/
def STR_DETECTION : String := "[] "

/-- Bus-speed constant from the external `applibs/i2c.h` header (100 kHz). -/
def I2C_BUS_SPEED_STANDARD : Nat := 100000

/-- Bus-speed constant from the external `applibs/i2c.h` header (400 kHz). -/
def I2C_BUS_SPEED_FAST : Nat := 400000

/-- Bus-speed constant from the external `applibs/i2c.h` header (1 MHz). -/
def I2C_BUS_SPEED_FAST_PLUS : Nat := 1000000

/-- Opaque board-specific I2C interface identifier from
`hw/project_hardware.h`; its concrete value is irrelevant to the program. -/
def PROJECT_ISU2_I2C : Nat := 2

/-- Environment oracle for one `PerformScan` call: the values returned by the
vendor driver, the ambient `errno`/`strerror` state observed at a failure,
and the (arbitrary) initial contents of the uninitialized local array
`scanResult`. -/
structure BusEnv where
  openFd : Int
  setSpeedRet : Int
  setTimeoutRet : Int
  readRet : Nat → Int
  errnoVal : Nat
  errDesc : String
  initResult : Nat → Nat

/-- Hex digit character, `printf` `%X` style: `0`-`9` then `A`-`F`. -/
def hexDigit (n : Nat) : Char :=
  if n < 10 then Char.ofNat (48 + n) else Char.ofNat (55 + n)

/-- Rendering of `printf` format `%01X` for a nibble argument. -/
def hex1 (n : Nat) : String := String.singleton (hexDigit (n % 16))

/-- Rendering of `printf` format `0x%02X` for a byte-sized argument. -/
def hex02 (n : Nat) : String :=
  "0x" ++ String.singleton (hexDigit (n / 16 % 16)) ++ String.singleton (hexDigit (n % 16))

/-- Error message of main.c lines 107-108 (open failure). -/
def openErrMsg (env : BusEnv) : String :=
  "ERROR: I2CMaster_Open: errno=" ++ toString env.errnoVal ++ " (" ++ env.errDesc ++ ")\n"

/-- Error message of main.c lines 113-114 (set-bus-speed failure). -/
def speedErrMsg (env : BusEnv) : String :=
  "ERROR: Failed to set I2C bus speed: errno=" ++ toString env.errnoVal ++ " (" ++ env.errDesc ++ ")\n"

/-- Error message of main.c lines 119-120 (set-timeout failure). -/
def timeoutErrMsg (env : BusEnv) : String :=
  "ERROR: I2CMaster_SetTimeout: errno=" ++ toString env.errnoVal ++ " (" ++ env.errDesc ++ ")\n"

/-- The `switch (busSpeed)` of main.c lines 86-103: label printed after the
banner. -/
def speedLabel (busSpeed : Nat) : String :=
  if busSpeed = I2C_BUS_SPEED_STANDARD then "100 kHz\n"
  else if busSpeed = I2C_BUS_SPEED_FAST then "400 kHz\n"
  else if busSpeed = I2C_BUS_SPEED_FAST_PLUS then "1 MHz\n"
  else "unknown speed\n"

/-- Top header of the grid, main.c lines 126-131: five spaces, the sixteen
column labels `0%01X `, then a newline. -/
def topHeaderEvents : List Event :=
  [Event.log "     "]
    ++ (List.range 16).map (fun addrL => Event.log ("0" ++ hex1 addrL ++ " "))
    ++ [Event.log "\n"]

/-- State threaded through the scanning double loop: the emitted trace so far
and the contents of the local array `scanResult`. -/
structure ScanState where
  events : List Event
  scanResult : Nat → Nat

/-- Value stored into `scanResult[devAddr]` by one iteration of the inner
loop (main.c lines 141-155). -/
def cellVal (env : BusEnv) (a : Nat) : Nat :=
  if a = 0 then 0 else if env.readRet a ≠ -1 then 1 else 0

/-- Events emitted by one iteration of the inner loop (main.c lines
141-155): address 0 logs three spaces and is not probed; otherwise a 1-byte
read is attempted and the detection or no-detection marker is logged. -/
def cellChunk (env : BusEnv) (fd : Int) (a : Nat) : List Event :=
  if a = 0 then [Event.log "   "]
  else if env.readRet a ≠ -1 then [Event.readProbe fd a (env.readRet a), Event.log STR_DETECTION]
  else [Event.readProbe fd a (env.readRet a), Event.log STR_NO_DETECTION]

/-- One iteration of the inner loop as a state transformer. -/
def cellStep (env : BusEnv) (fd : Int) (st : ScanState) (a : Nat) : ScanState :=
  { events := st.events ++ cellChunk env fd a,
    scanResult := Function.update st.scanResult a (cellVal env a) }

/-- One iteration of the outer loop (main.c lines 134-158): the row label
`0x%02X `, the sixteen cells with `devAddr = addrH | addrL`, a newline. -/
def rowStep (env : BusEnv) (fd : Int) (st : ScanState) (addrH : Nat) : ScanState :=
  let st1 : ScanState := { st with events := st.events ++ [Event.log (hex02 addrH ++ " ")] }
  let st2 := (List.range 16).foldl (fun s addrL => cellStep env fd s (addrH ||| addrL)) st1
  { st2 with events := st2.events ++ [Event.log "\n"] }

/-- The values taken by `addrH` in the outer loop:
`for (addrH = 0; addrH < 0x80; addrH += 0x10)`. -/
def gridRows : List Nat := List.range' 0 8 16

/-- The complete scanning double loop (main.c lines 134-158). -/
def scanGrid (env : BusEnv) (fd : Int) (st : ScanState) : ScanState :=
  gridRows.foldl (rowStep env fd) st

/-- One iteration of the summary loop (main.c lines 163-169): state is the
trace plus the `detectionSuccess` flag. -/
def summaryStep (res : Nat → Nat) (st : List Event × Bool) (a : Nat) : List Event × Bool :=
  if res a ≠ 0 then (st.1 ++ [Event.log (hex02 a ++ " ")], true) else st

/-- The summary section (main.c lines 160-175): header, the loop over
addresses 1..0x7F, the no-devices message when nothing was detected, and the
final blank lines. -/
def summaryEvents (res : Nat → Nat) : List Event :=
  let st := (List.range' 1 127).foldl (summaryStep res) ([Event.log "\n *** I2C devices detected at: "], false)
  st.1 ++ (if st.2 then [] else [Event.log "NO DEVICES DETECTED"]) ++ [Event.log "\n\n"]

/-- Result of one `PerformScan` call: the emitted trace, the value left in
the global `i2cFd`, and the final contents of the local `scanResult` array
when the pass ran to completion (`none` when it aborted early, in which case
the array is never read). -/
structure ScanOut where
  events : List Event
  fd : Int
  result : Option (Nat → Nat)

/-- `PerformScan` (main.c lines 77-178): banner and speed label, open,
set speed, set timeout (each failure logs an error and returns early without
closing), then the header, the scanning double loop, the summary, and the
`close(i2cFd)` on the completed path. -/
def PerformScan (busSpeed : Nat) (env : BusEnv) : ScanOut :=
  let ev0 : List Event := [Event.log "---- I2C Scan at ", Event.log (speedLabel busSpeed)]
  let fd := env.openFd
  let ev1 := ev0 ++ [Event.openBus PROJECT_ISU2_I2C fd]
  if fd < 0 then
    { events := ev1 ++ [Event.log (openErrMsg env)], fd := fd, result := none }
  else
    let ev2 := ev1 ++ [Event.setSpeed fd busSpeed env.setSpeedRet]
    if env.setSpeedRet ≠ 0 then
      { events := ev2 ++ [Event.log (speedErrMsg env)], fd := fd, result := none }
    else
      let ev3 := ev2 ++ [Event.setTimeout fd I2C_BUS_TIMEOUT_MS env.setTimeoutRet]
      if env.setTimeoutRet ≠ 0 then
        { events := ev3 ++ [Event.log (timeoutErrMsg env)], fd := fd, result := none }
      else
        let st0 : ScanState := { events := ev3 ++ topHeaderEvents, scanResult := env.initResult }
        let st1 := scanGrid env fd st0
        { events := st1.events ++ summaryEvents st1.scanResult ++ [Event.closeFd fd],
          fd := fd, result := some st1.scanResult }

/-- `InitPeripheralsAndHandlers` (main.c lines 55-64): registers the SIGTERM
handler and unconditionally returns 0. -/
def InitPeripheralsAndHandlers : List Event × Int := ([Event.sigaction], 0)

/-- `ClosePeripheralsAndHandlers` (main.c lines 69-72): closes the current
value of the global `i2cFd`. -/
def ClosePeripheralsAndHandlers (i2cFd : Int) : List Event := [Event.closeFd i2cFd]

/-- The compile-time scan-speed selection, one flag per
`ENABLE_SCAN_BUS_SPEED_*` preprocessor directive (main.c lines 17-19). -/
structure Config where
  enable1M : Bool
  enable400K : Bool
  enable100K : Bool

/-- The configuration of the source as committed: all three directives are
defined. -/
def sourceConfig : Config := { enable1M := true, enable400K := true, enable100K := true }

/-- The speeds scanned by `main`, in program order (main.c lines 190-200):
1 MHz, then 400 kHz, then 100 kHz, each under its directive. -/
def enabledSpeeds (cfg : Config) : List Nat :=
  (if cfg.enable1M then [I2C_BUS_SPEED_FAST_PLUS] else [])
    ++ (if cfg.enable400K then [I2C_BUS_SPEED_FAST] else [])
    ++ (if cfg.enable100K then [I2C_BUS_SPEED_STANDARD] else [])

/-- Whole-program environment: `sigPhase = some k` means the SIGTERM handler
(which sets `terminationRequired`) runs immediately before top-level phase
`k`, where phase 0 is the flag poll at main.c line 189 and phase `k ≥ 1` is
the `k`-th enabled `PerformScan` call; `none` means no signal arrives.
`envs i` is the driver oracle for the `i`-th `PerformScan` call. -/
structure World where
  sigPhase : Option Nat
  envs : Nat → BusEnv

/-- Value of `terminationRequired` observed by the single poll at main.c
line 189: set when `InitPeripheralsAndHandlers` failed (it cannot) or when
the signal arrived before the poll. -/
def flagAtPoll (w : World) : Bool :=
  (InitPeripheralsAndHandlers.2 != 0) || (w.sigPhase == some 0)

/-- The sequence of enabled `PerformScan` calls, threading the global
`i2cFd` (each call overwrites it with its own open result). -/
def runScans (envs : Nat → BusEnv) : List Nat → Nat → Int → List Event × Int
  | [], _, fd => ([], fd)
  | sp :: rest, i, _ =>
    let s := PerformScan sp (envs i)
    let r := runScans envs rest (i + 1) s.fd
    (s.events ++ r.1, r.2)

/-- `main` (main.c lines 183-205): init, one poll of `terminationRequired`,
the enabled scans when the flag was clear, `ClosePeripheralsAndHandlers` on
the final `i2cFd` (initially -1), and return value 0.  The flag is read
nowhere else, so execution after the poll does not depend on `sigPhase`. -/
def mainRun (cfg : Config) (w : World) : List Event × Int :=
  let init := InitPeripheralsAndHandlers
  if flagAtPoll w then
    (init.1 ++ [Event.pollTerm true] ++ ClosePeripheralsAndHandlers (-1), 0)
  else
    let r := runScans w.envs (enabledSpeeds cfg) 0 (-1)
    (init.1 ++ [Event.pollTerm false] ++ r.1 ++ ClosePeripheralsAndHandlers r.2, 0)

/-- Addresses passed to `I2CMaster_Read`, in trace order. -/
def probedAddrs (l : List Event) : List Nat :=
  l.filterMap fun e => match e with
    | Event.readProbe _ a _ => some a
    | _ => none

/-- Strings passed to `Log_Debug`, in trace order. -/
def logsOf (l : List Event) : List String :=
  l.filterMap fun e => match e with
    | Event.log s => some s
    | _ => none

/-- Grid-cell markers (the three-character detection strings) among the
logged strings, in trace order. -/
def markersOf (l : List Event) : List String :=
  (logsOf l).filter fun s => s == "   " || s == STR_DETECTION || s == STR_NO_DETECTION

/-- Return values of all `I2CMaster_Open` calls, in trace order. -/
def opensOf (l : List Event) : List Int :=
  l.filterMap fun e => match e with
    | Event.openBus _ ret => some ret
    | _ => none

/-- Return values of the successful `I2CMaster_Open` calls (a non-negative
file descriptor), in trace order. -/
def succOpens (l : List Event) : List Int :=
  l.filterMap fun e => match e with
    | Event.openBus _ ret => if 0 ≤ ret then some ret else none
    | _ => none

/-- Arguments of all `close` calls, in trace order. -/
def closesOf (l : List Event) : List Int :=
  l.filterMap fun e => match e with
    | Event.closeFd fd => some fd
    | _ => none

/-- Values observed by reads of `terminationRequired` in the main flow, in
trace order. -/
def pollsOf (l : List Event) : List Bool :=
  l.filterMap fun e => match e with
    | Event.pollTerm b => some b
    | _ => none

/-- Contents of `scanResult` after a completed pass, in closed form: every
index 0..127 is overwritten by the double loop, indices ≥ 128 keep the
arbitrary initial contents. -/
def scanRes (env : BusEnv) : Nat → Nat :=
  fun a => if a < 128 then cellVal env a else env.initResult a

/-- Marker logged for grid cell `a` in closed form. -/
def cellMarker (env : BusEnv) (a : Nat) : String :=
  if a = 0 then "   " else if env.readRet a ≠ -1 then STR_DETECTION else STR_NO_DETECTION

/-- Events of one grid row in closed form. -/
def rowChunk (env : BusEnv) (fd : Int) (addrH : Nat) : List Event :=
  [Event.log (hex02 addrH ++ " ")]
    ++ ((List.range 16).map (fun addrL => addrH ||| addrL)).flatMap (cellChunk env fd)
    ++ [Event.log "\n"]

/-- Addresses whose summary entry is printed, in closed form. -/
def listedAddrs (res : Nat → Nat) : List Nat :=
  (List.range' 1 127).filter fun a => res a != 0

/-- A completed pass: the open succeeded and both configuration calls
returned 0 (main.c lines 106, 112, 118). -/
def ScanCompletes (env : BusEnv) : Prop :=
  ¬ env.openFd < 0 ∧ env.setSpeedRet = 0 ∧ env.setTimeoutRet = 0

/-- Speed arguments and return values of all `I2CMaster_SetBusSpeed` calls,
in trace order. -/
def speedSetsOf (l : List Event) : List (Nat × Int) :=
  l.filterMap fun e => match e with
    | Event.setSpeed _ speed ret => some (speed, ret)
    | _ => none

/-- Millisecond arguments and return values of all `I2CMaster_SetTimeout`
calls, in trace order. -/
def timeoutSetsOf (l : List Event) : List (Nat × Int) :=
  l.filterMap fun e => match e with
    | Event.setTimeout _ ms ret => some (ms, ret)
    | _ => none

/-- Spec-side description of one labeled scan section (spec section 4.1,
multi-speed variant): the section opens with the banner and its speed label,
performs exactly one open, one speed configuration at its own speed, probes
every address 1..127 in ascending order, and closes its own handle exactly
once. -/
def LabeledScanCycle (sp : Nat) (env : BusEnv) (label : String) : Prop :=
  (∃ rest, (PerformScan sp env).events
      = [Event.log "---- I2C Scan at ", Event.log label] ++ rest)
  ∧ opensOf (PerformScan sp env).events = [env.openFd]
  ∧ speedSetsOf (PerformScan sp env).events = [(sp, 0)]
  ∧ timeoutSetsOf (PerformScan sp env).events = [(I2C_BUS_TIMEOUT_MS, 0)]
  ∧ probedAddrs (PerformScan sp env).events = List.range' 1 127
  ∧ closesOf (PerformScan sp env).events = [env.openFd]

/-- Concrete driver environment: the open returns file descriptor `fd`, the
configuration calls succeed, and no device answers any probe. -/
def envOk (fd : Int) : BusEnv :=
  { openFd := fd, setSpeedRet := 0, setTimeoutRet := 0, readRet := fun _ => -1,
    errnoVal := 0, errDesc := "", initResult := fun _ => 0 }

/-- Concrete driver environment: devices answer at 0x1A and 0x50 only. -/
def envTwoDevices : BusEnv :=
  { envOk 3 with readRet := fun a => if a = 26 ∨ a = 80 then 1 else -1 }

/-- Concrete driver environment: `I2CMaster_Open` fails. -/
def envOpenFail : BusEnv :=
  { envOk 3 with openFd := -1, errnoVal := 2, errDesc := "No such file or directory" }

/-- Concrete driver environment: the open succeeds with file descriptor 3
but `I2CMaster_SetBusSpeed` fails. -/
def envCfgFail : BusEnv :=
  { envOk 3 with setSpeedRet := -1, errnoVal := 22, errDesc := "Invalid argument" }

/-- World in which no termination signal ever arrives and every scan
completes with no device detected. -/
def wNoSignal : World := { sigPhase := none, envs := fun _ => envOk 3 }

/-- World in which the termination signal arrives before the poll. -/
def wSigAtPoll : World := { sigPhase := some 0, envs := fun _ => envOk 3 }

/-- World in which the termination signal arrives after the poll but before
the first scan phase begins; the three scans get distinct descriptors 3, 4
and 5. -/
def wSigAfterPoll : World :=
  { sigPhase := some 1, envs := fun i => envOk (3 + i) }

/-- World for the close-exactly-once analysis: the first (1 MHz) pass opens
descriptor 3 and then fails to configure the bus speed; the later passes
open descriptors 5 and 6 and complete. -/
def leakWorld : World :=
  { sigPhase := none, envs := fun i => if i = 0 then envCfgFail else envOk (4 + i) }

/-! ### Helper lemmas: trace extraction -/

/-- Events that are logs or probe calls: everything the grid, the top header
and the summary emit. -/
def LogOrProbe (e : Event) : Prop :=
  (∃ s, e = Event.log s) ∨ (∃ fd a r, e = Event.readProbe fd a r)

theorem probedAddrs_append (l1 l2 : List Event) :
    probedAddrs (l1 ++ l2) = probedAddrs l1 ++ probedAddrs l2 := by
  simp [probedAddrs, List.filterMap_append]

theorem logsOf_append (l1 l2 : List Event) :
    logsOf (l1 ++ l2) = logsOf l1 ++ logsOf l2 := by
  simp [logsOf, List.filterMap_append]

theorem markersOf_append (l1 l2 : List Event) :
    markersOf (l1 ++ l2) = markersOf l1 ++ markersOf l2 := by
  simp [markersOf, logsOf_append, List.filter_append]

theorem opensOf_append (l1 l2 : List Event) :
    opensOf (l1 ++ l2) = opensOf l1 ++ opensOf l2 := by
  simp [opensOf, List.filterMap_append]

theorem succOpens_append (l1 l2 : List Event) :
    succOpens (l1 ++ l2) = succOpens l1 ++ succOpens l2 := by
  simp [succOpens, List.filterMap_append]

theorem closesOf_append (l1 l2 : List Event) :
    closesOf (l1 ++ l2) = closesOf l1 ++ closesOf l2 := by
  simp [closesOf, List.filterMap_append]

theorem pollsOf_append (l1 l2 : List Event) :
    pollsOf (l1 ++ l2) = pollsOf l1 ++ pollsOf l2 := by
  simp [pollsOf, List.filterMap_append]

theorem opensOf_nil_of_logOrProbe (l : List Event) (h : ∀ e ∈ l, LogOrProbe e) :
    opensOf l = [] := by
  refine List.filterMap_eq_nil_iff.mpr fun e he => ?_
  rcases h e he with ⟨s, rfl⟩ | ⟨fd, a, r, rfl⟩ <;> rfl

theorem succOpens_nil_of_logOrProbe (l : List Event) (h : ∀ e ∈ l, LogOrProbe e) :
    succOpens l = [] := by
  refine List.filterMap_eq_nil_iff.mpr fun e he => ?_
  rcases h e he with ⟨s, rfl⟩ | ⟨fd, a, r, rfl⟩ <;> rfl

theorem closesOf_nil_of_logOrProbe (l : List Event) (h : ∀ e ∈ l, LogOrProbe e) :
    closesOf l = [] := by
  refine List.filterMap_eq_nil_iff.mpr fun e he => ?_
  rcases h e he with ⟨s, rfl⟩ | ⟨fd, a, r, rfl⟩ <;> rfl

theorem pollsOf_nil_of_logOrProbe (l : List Event) (h : ∀ e ∈ l, LogOrProbe e) :
    pollsOf l = [] := by
  refine List.filterMap_eq_nil_iff.mpr fun e he => ?_
  rcases h e he with ⟨s, rfl⟩ | ⟨fd, a, r, rfl⟩ <;> rfl

/-! ### Helper lemmas: the scanning double loop -/

theorem foldl_cellStep_events (env : BusEnv) (fd : Int) (l : List Nat) (st : ScanState) :
    (l.foldl (cellStep env fd) st).events = st.events ++ l.flatMap (cellChunk env fd) := by
  induction l generalizing st with
  | nil => simp
  | cons a l ih => simp [List.foldl_cons, ih, cellStep, List.append_assoc]

theorem foldl_cellStep_scanResult (env : BusEnv) (fd : Int) (l : List Nat) (st : ScanState)
    (a : Nat) :
    (l.foldl (cellStep env fd) st).scanResult a
      = if a ∈ l then cellVal env a else st.scanResult a := by
  induction l generalizing st with
  | nil => simp
  | cons b l ih =>
    by_cases hmem : a ∈ l
    · simp [List.foldl_cons, ih, hmem]
    · by_cases hab : a = b
      · subst hab
        simp [List.foldl_cons, ih, hmem, cellStep, Function.update_apply]
      · simp [List.foldl_cons, ih, hmem, cellStep, Function.update_apply, hab]

theorem rowStep_events (env : BusEnv) (fd : Int) (st : ScanState) (addrH : Nat) :
    (rowStep env fd st addrH).events = st.events ++ rowChunk env fd addrH := by
  have h := foldl_cellStep_events env fd
    ((List.range 16).map (fun addrL => addrH ||| addrL))
    { st with events := st.events ++ [Event.log (hex02 addrH ++ " ")] }
  rw [List.foldl_map] at h
  simp only [rowStep, h]
  simp [rowChunk, List.append_assoc]

theorem rowStep_scanResult (env : BusEnv) (fd : Int) (st : ScanState) (addrH a : Nat) :
    (rowStep env fd st addrH).scanResult a
      = if a ∈ (List.range 16).map (fun addrL => addrH ||| addrL) then cellVal env a
        else st.scanResult a := by
  have h := foldl_cellStep_scanResult env fd
    ((List.range 16).map (fun addrL => addrH ||| addrL))
    { st with events := st.events ++ [Event.log (hex02 addrH ++ " ")] } a
  rw [List.foldl_map] at h
  simp only [rowStep, h]

theorem foldl_rowStep_events (env : BusEnv) (fd : Int) (rows : List Nat) (st : ScanState) :
    (rows.foldl (rowStep env fd) st).events = st.events ++ rows.flatMap (rowChunk env fd) := by
  induction rows generalizing st with
  | nil => simp
  | cons h rows ih => simp [List.foldl_cons, ih, rowStep_events, List.append_assoc]

theorem foldl_rowStep_scanResult (env : BusEnv) (fd : Int) (rows : List Nat) (st : ScanState)
    (a : Nat) :
    (rows.foldl (rowStep env fd) st).scanResult a
      = if a ∈ rows.flatMap (fun h => (List.range 16).map (fun addrL => h ||| addrL))
        then cellVal env a else st.scanResult a := by
  induction rows generalizing st with
  | nil => simp
  | cons h rows ih =>
    by_cases hmem : a ∈ rows.flatMap (fun h => (List.range 16).map (fun addrL => h ||| addrL))
    · simp [List.foldl_cons, ih, hmem]
    · by_cases hrow : a ∈ (List.range 16).map (fun addrL => h ||| addrL)
      · simp [List.foldl_cons, ih, hmem, rowStep_scanResult, hrow]
      · simp [List.foldl_cons, ih, hmem, rowStep_scanResult, hrow]

/-- The flattened address sequence of the double loop is exactly 0..127. -/
theorem gridAddrs_eq :
    gridRows.flatMap (fun h => (List.range 16).map (fun addrL => h ||| addrL))
      = List.range 128 := by decide

theorem scanGrid_events (env : BusEnv) (fd : Int) (st : ScanState) :
    (scanGrid env fd st).events = st.events ++ gridRows.flatMap (rowChunk env fd) :=
  foldl_rowStep_events env fd gridRows st

theorem scanGrid_scanResult (env : BusEnv) (fd : Int) (st : ScanState) :
    (scanGrid env fd st).scanResult
      = fun a => if a < 128 then cellVal env a else st.scanResult a := by
  funext a
  rw [scanGrid, foldl_rowStep_scanResult, gridAddrs_eq]
  simp [List.mem_range]

/-! ### Helper lemmas: the summary loop -/

theorem foldl_summaryStep (res : Nat → Nat) (l : List Nat) (ev : List Event) (b : Bool) :
    l.foldl (summaryStep res) (ev, b)
      = (ev ++ (l.filter (fun a => res a != 0)).map (fun a => Event.log (hex02 a ++ " ")),
         b || l.any (fun a => res a != 0)) := by
  induction l generalizing ev b with
  | nil => simp
  | cons a l ih =>
    by_cases h : res a = 0
    · simp [List.foldl_cons, summaryStep, h, ih]
    · simp [List.foldl_cons, summaryStep, h, ih, List.append_assoc]

theorem summaryEvents_eq (res : Nat → Nat) :
    summaryEvents res
      = [Event.log "\n *** I2C devices detected at: "]
          ++ (listedAddrs res).map (fun a => Event.log (hex02 a ++ " "))
          ++ (if listedAddrs res = [] then [Event.log "NO DEVICES DETECTED"] else [])
          ++ [Event.log "\n\n"] := by
  have h := foldl_summaryStep res (List.range' 1 127)
    [Event.log "\n *** I2C devices detected at: "] false
  simp only [summaryEvents]
  rw [h]
  simp only [Bool.false_or, listedAddrs]
  by_cases hany : (List.range' 1 127).any (fun a => res a != 0) = true
  · have hf : (List.range' 1 127).filter (fun a => res a != 0) ≠ [] := by
      rcases List.any_eq_true.mp hany with ⟨a, ha, hp⟩
      intro hnil
      have : a ∈ (List.range' 1 127).filter (fun a => res a != 0) :=
        List.mem_filter.mpr ⟨ha, hp⟩
      simp [hnil] at this
    simp [hany, hf, List.append_assoc]
  · have hf : (List.range' 1 127).filter (fun a => res a != 0) = [] := by
      refine List.filter_eq_nil_iff.mpr fun a ha => ?_
      intro hp
      exact hany (List.any_eq_true.mpr ⟨a, ha, hp⟩)
    simp [hany, hf, List.append_assoc]

/-! ### Helper lemmas: which events each section can contain -/

theorem topHeader_logOrProbe : ∀ e ∈ topHeaderEvents, LogOrProbe e := by
  intro e he
  simp only [topHeaderEvents, List.mem_append, List.mem_singleton, List.mem_map] at he
  rcases he with (rfl | ⟨a, _, rfl⟩) | rfl <;> exact Or.inl ⟨_, rfl⟩

theorem cellChunk_logOrProbe (env : BusEnv) (fd : Int) (a : Nat) :
    ∀ e ∈ cellChunk env fd a, LogOrProbe e := by
  intro e he
  unfold cellChunk at he
  split_ifs at he
  · simp only [List.mem_singleton] at he
    subst he; exact Or.inl ⟨_, rfl⟩
  · simp only [List.mem_cons, List.mem_singleton, List.not_mem_nil, or_false] at he
    rcases he with rfl | rfl
    · exact Or.inr ⟨_, _, _, rfl⟩
    · exact Or.inl ⟨_, rfl⟩
  · simp only [List.mem_cons, List.mem_singleton, List.not_mem_nil, or_false] at he
    rcases he with rfl | rfl
    · exact Or.inr ⟨_, _, _, rfl⟩
    · exact Or.inl ⟨_, rfl⟩

theorem rowChunk_logOrProbe (env : BusEnv) (fd : Int) (addrH : Nat) :
    ∀ e ∈ rowChunk env fd addrH, LogOrProbe e := by
  intro e he
  simp only [rowChunk, List.mem_append, List.mem_singleton, List.mem_flatMap] at he
  rcases he with (rfl | ⟨a, _, hce⟩) | rfl
  · exact Or.inl ⟨_, rfl⟩
  · exact cellChunk_logOrProbe env fd a e hce
  · exact Or.inl ⟨_, rfl⟩

theorem grid_logOrProbe (env : BusEnv) (fd : Int) :
    ∀ e ∈ gridRows.flatMap (rowChunk env fd), LogOrProbe e := by
  intro e he
  rcases List.mem_flatMap.mp he with ⟨h, _, hre⟩
  exact rowChunk_logOrProbe env fd h e hre

theorem summary_logOrProbe (res : Nat → Nat) : ∀ e ∈ summaryEvents res, LogOrProbe e := by
  rw [summaryEvents_eq]
  intro e he
  simp only [List.mem_append] at he
  rcases he with ((h1 | h2) | h3) | h4
  · simp only [List.mem_singleton] at h1; subst h1; exact Or.inl ⟨_, rfl⟩
  · rcases List.mem_map.mp h2 with ⟨a, _, rfl⟩; exact Or.inl ⟨_, rfl⟩
  · split at h3
    · simp only [List.mem_singleton] at h3; subst h3; exact Or.inl ⟨_, rfl⟩
    · simp at h3
  · simp only [List.mem_singleton] at h4; subst h4; exact Or.inl ⟨_, rfl⟩

/-! ### Helper lemmas: `PerformScan` path analysis -/

theorem performScan_openFail (sp : Nat) (env : BusEnv) (h : env.openFd < 0) :
    PerformScan sp env
      = { events := [Event.log "---- I2C Scan at ", Event.log (speedLabel sp),
                     Event.openBus PROJECT_ISU2_I2C env.openFd, Event.log (openErrMsg env)],
          fd := env.openFd, result := none } := by
  simp only [PerformScan]
  rw [if_pos h]
  rfl

theorem performScan_speedFail (sp : Nat) (env : BusEnv) (h1 : ¬ env.openFd < 0)
    (h2 : env.setSpeedRet ≠ 0) :
    PerformScan sp env
      = { events := [Event.log "---- I2C Scan at ", Event.log (speedLabel sp),
                     Event.openBus PROJECT_ISU2_I2C env.openFd,
                     Event.setSpeed env.openFd sp env.setSpeedRet, Event.log (speedErrMsg env)],
          fd := env.openFd, result := none } := by
  simp only [PerformScan]
  rw [if_neg h1, if_pos h2]
  rfl

theorem performScan_timeoutFail (sp : Nat) (env : BusEnv) (h1 : ¬ env.openFd < 0)
    (h2 : env.setSpeedRet = 0) (h3 : env.setTimeoutRet ≠ 0) :
    PerformScan sp env
      = { events := [Event.log "---- I2C Scan at ", Event.log (speedLabel sp),
                     Event.openBus PROJECT_ISU2_I2C env.openFd,
                     Event.setSpeed env.openFd sp 0,
                     Event.setTimeout env.openFd I2C_BUS_TIMEOUT_MS env.setTimeoutRet,
                     Event.log (timeoutErrMsg env)],
          fd := env.openFd, result := none } := by
  simp only [PerformScan]
  rw [h2, if_neg h1, if_neg (by decide : ¬ (0 : Int) ≠ 0), if_pos h3]
  rfl

theorem performScan_completed (sp : Nat) (env : BusEnv) (h1 : ¬ env.openFd < 0)
    (h2 : env.setSpeedRet = 0) (h3 : env.setTimeoutRet = 0) :
    PerformScan sp env
      = { events := [Event.log "---- I2C Scan at ", Event.log (speedLabel sp),
                     Event.openBus PROJECT_ISU2_I2C env.openFd,
                     Event.setSpeed env.openFd sp 0,
                     Event.setTimeout env.openFd I2C_BUS_TIMEOUT_MS 0]
                      ++ topHeaderEvents
                      ++ gridRows.flatMap (rowChunk env env.openFd)
                      ++ summaryEvents (scanRes env)
                      ++ [Event.closeFd env.openFd],
          fd := env.openFd, result := some (scanRes env) } := by
  simp only [PerformScan]
  rw [h2, h3, if_neg h1, if_neg (by decide : ¬ (0 : Int) ≠ 0), if_neg (by decide : ¬ (0 : Int) ≠ 0)]
  rw [scanGrid_events, scanGrid_scanResult]
  simp [List.append_assoc, scanRes]
  exact ⟨rfl, rfl⟩

/-! ### Helper lemmas: probed addresses -/

theorem probedAddrs_flatMap (f : Nat → List Event) (l : List Nat) :
    probedAddrs (l.flatMap f) = l.flatMap (fun a => probedAddrs (f a)) := by
  induction l with
  | nil => rfl
  | cons a l ih => simp [List.flatMap_cons, probedAddrs_append, ih]

theorem probedAddrs_cellChunk (env : BusEnv) (fd : Int) (a : Nat) :
    probedAddrs (cellChunk env fd a) = if a = 0 then [] else [a] := by
  unfold cellChunk
  split_ifs <;> rfl

theorem probedAddrs_map_log {α : Type} (g : α → String) (l : List α) :
    probedAddrs (l.map fun a => Event.log (g a)) = [] := by
  induction l with
  | nil => rfl
  | cons a l ih => simp [probedAddrs] at ih ⊢

theorem probedAddrs_log_singleton (s : String) : probedAddrs [Event.log s] = [] := rfl

theorem probedAddrs_rowChunk (env : BusEnv) (fd : Int) (addrH : Nat) :
    probedAddrs (rowChunk env fd addrH)
      = ((List.range 16).map (fun j => addrH ||| j)).flatMap
          (fun a => if a = 0 then [] else [a]) := by
  simp only [rowChunk, probedAddrs_append, probedAddrs_flatMap, probedAddrs_cellChunk,
    probedAddrs_log_singleton, List.append_nil, List.nil_append]

theorem probedAddrs_grid (env : BusEnv) (fd : Int) :
    probedAddrs (gridRows.flatMap (rowChunk env fd)) = List.range' 1 127 := by
  rw [probedAddrs_flatMap]
  simp only [probedAddrs_rowChunk]
  rw [← List.flatMap_assoc, gridAddrs_eq]
  decide

theorem probedAddrs_summary (res : Nat → Nat) : probedAddrs (summaryEvents res) = [] := by
  rw [summaryEvents_eq]
  simp only [probedAddrs_append, probedAddrs_map_log]
  split <;> rfl

theorem probedAddrs_topHeader : probedAddrs topHeaderEvents = [] := by decide

/-! ### Helper lemmas: grid-cell markers -/

theorem markersOf_flatMap (f : Nat → List Event) (l : List Nat) :
    markersOf (l.flatMap f) = l.flatMap (fun a => markersOf (f a)) := by
  induction l with
  | nil => rfl
  | cons a l ih => simp [List.flatMap_cons, markersOf_append, ih]

theorem markersOf_cellChunk (env : BusEnv) (fd : Int) (a : Nat) :
    markersOf (cellChunk env fd a) = [cellMarker env a] := by
  unfold cellChunk cellMarker
  split_ifs <;> rfl

theorem markersOf_log_singleton (s : String) :
    markersOf [Event.log s]
      = if (s == "   " || s == STR_DETECTION || s == STR_NO_DETECTION) then [s] else [] := by
  show ([s].filter fun x => x == "   " || x == STR_DETECTION || x == STR_NO_DETECTION) = _
  rw [List.filter_singleton, Bool.cond_eq_if]

theorem markersOf_map_log {α : Type} (g : α → String) (l : List α)
    (h : ∀ a ∈ l, (g a == "   " || g a == STR_DETECTION || g a == STR_NO_DETECTION) = false) :
    markersOf (l.map fun a => Event.log (g a)) = [] := by
  induction l with
  | nil => rfl
  | cons a l ih =>
    rw [List.map_cons,
      show (Event.log (g a) :: l.map fun a => Event.log (g a))
          = [Event.log (g a)] ++ l.map fun a => Event.log (g a) from rfl,
      markersOf_append, markersOf_log_singleton]
    simp only [h a (List.mem_cons_self a l), if_false, Bool.false_eq_true, List.nil_append]
    exact ih fun b hb => h b (List.mem_cons_of_mem a hb)

theorem flatMap_singleton_map {α β : Type} (g : α → β) (l : List α) :
    (l.flatMap fun a => [g a]) = l.map g := by
  induction l <;> simp [*]

theorem markersOf_rowChunk (env : BusEnv) (fd : Int) (addrH : Nat)
    (hlab : ((hex02 addrH ++ " ") == "   " || (hex02 addrH ++ " ") == STR_DETECTION
              || (hex02 addrH ++ " ") == STR_NO_DETECTION) = false) :
    markersOf (rowChunk env fd addrH)
      = ((List.range 16).map (fun j => addrH ||| j)).map (cellMarker env) := by
  simp only [rowChunk, markersOf_append, markersOf_flatMap, markersOf_cellChunk]
  rw [markersOf_log_singleton, flatMap_singleton_map,
    show markersOf [Event.log "\n"] = [] from rfl, hlab]
  simp

theorem markersOf_grid (env : BusEnv) (fd : Int) :
    markersOf (gridRows.flatMap (rowChunk env fd)) = (List.range 128).map (cellMarker env) := by
  rw [markersOf_flatMap]
  have hg : gridRows = [0, 16, 32, 48, 64, 80, 96, 112] := rfl
  rw [hg]
  simp only [List.flatMap_cons, List.flatMap_nil, List.append_nil]
  rw [markersOf_rowChunk env fd 0 (by decide), markersOf_rowChunk env fd 16 (by decide),
    markersOf_rowChunk env fd 32 (by decide), markersOf_rowChunk env fd 48 (by decide),
    markersOf_rowChunk env fd 64 (by decide), markersOf_rowChunk env fd 80 (by decide),
    markersOf_rowChunk env fd 96 (by decide), markersOf_rowChunk env fd 112 (by decide)]
  simp only [← List.map_append]
  congr 1

theorem markersOf_summary (res : Nat → Nat) : markersOf (summaryEvents res) = [] := by
  rw [summaryEvents_eq]
  simp only [markersOf_append]
  have h2 : markersOf ((listedAddrs res).map fun a => Event.log (hex02 a ++ " ")) = [] := by
    refine markersOf_map_log (fun a => hex02 a ++ " ") (listedAddrs res) fun a ha => ?_
    have hmem : a ∈ List.range' 1 127 := List.mem_of_mem_filter ha
    exact (by decide : ∀ a ∈ List.range' 1 127,
      ((hex02 a ++ " ") == "   " || (hex02 a ++ " ") == STR_DETECTION
        || (hex02 a ++ " ") == STR_NO_DETECTION) = false) a hmem
  have h3 : markersOf (if listedAddrs res = [] then [Event.log "NO DEVICES DETECTED"] else [])
      = [] := by split <;> rfl
  rw [h2, h3]
  rfl

theorem markersOf_topHeader : markersOf topHeaderEvents = [] := by
  rw [show topHeaderEvents
      = [Event.log "     "]
        ++ ((List.range 16).map (fun addrL => Event.log ("0" ++ hex1 addrL ++ " ")))
        ++ [Event.log "\n"] from rfl,
    markersOf_append, markersOf_append]
  rw [markersOf_map_log (fun addrL => "0" ++ hex1 addrL ++ " ") (List.range 16) (by decide)]
  rfl

theorem speedLabel_not_marker (sp : Nat) :
    (speedLabel sp == "   " || speedLabel sp == STR_DETECTION
      || speedLabel sp == STR_NO_DETECTION) = false := by
  unfold speedLabel
  split_ifs <;> decide

/-! ### Helper lemmas: extractors across `PerformScan` paths -/

theorem opensOf_performScan (sp : Nat) (env : BusEnv) :
    opensOf (PerformScan sp env).events = [env.openFd] := by
  by_cases h1 : env.openFd < 0
  · rw [performScan_openFail sp env h1]; rfl
  · by_cases h2 : env.setSpeedRet = 0
    · by_cases h3 : env.setTimeoutRet = 0
      · rw [performScan_completed sp env h1 h2 h3]
        simp only [opensOf_append]
        rw [opensOf_nil_of_logOrProbe _ topHeader_logOrProbe,
          opensOf_nil_of_logOrProbe _ (grid_logOrProbe env env.openFd),
          opensOf_nil_of_logOrProbe _ (summary_logOrProbe (scanRes env))]
        rfl
      · rw [performScan_timeoutFail sp env h1 h2 h3]; rfl
    · rw [performScan_speedFail sp env h1 h2]; rfl

theorem succOpens_performScan (sp : Nat) (env : BusEnv) :
    succOpens (PerformScan sp env).events = if env.openFd < 0 then [] else [env.openFd] := by
  by_cases h1 : env.openFd < 0
  · have hle : ¬ (0 : Int) ≤ env.openFd := not_le.mpr h1
    rw [performScan_openFail sp env h1, if_pos h1]
    simp [succOpens, hle]
  · have hle : (0 : Int) ≤ env.openFd := not_lt.mp h1
    rw [if_neg h1]
    by_cases h2 : env.setSpeedRet = 0
    · by_cases h3 : env.setTimeoutRet = 0
      · rw [performScan_completed sp env h1 h2 h3]
        simp only [succOpens_append]
        rw [succOpens_nil_of_logOrProbe _ topHeader_logOrProbe,
          succOpens_nil_of_logOrProbe _ (grid_logOrProbe env env.openFd),
          succOpens_nil_of_logOrProbe _ (summary_logOrProbe (scanRes env))]
        simp [succOpens, hle]
      · rw [performScan_timeoutFail sp env h1 h2 h3]
        simp [succOpens, hle]
    · rw [performScan_speedFail sp env h1 h2]
      simp [succOpens, hle]

theorem closesOf_performScan_completed (sp : Nat) (env : BusEnv) (h1 : ¬ env.openFd < 0)
    (h2 : env.setSpeedRet = 0) (h3 : env.setTimeoutRet = 0) :
    closesOf (PerformScan sp env).events = [env.openFd] := by
  rw [performScan_completed sp env h1 h2 h3]
  simp only [closesOf_append]
  rw [closesOf_nil_of_logOrProbe _ topHeader_logOrProbe,
    closesOf_nil_of_logOrProbe _ (grid_logOrProbe env env.openFd),
    closesOf_nil_of_logOrProbe _ (summary_logOrProbe (scanRes env))]
  rfl

theorem closesOf_performScan_abort (sp : Nat) (env : BusEnv)
    (h : env.openFd < 0 ∨ env.setSpeedRet ≠ 0 ∨ env.setTimeoutRet ≠ 0) :
    closesOf (PerformScan sp env).events = [] := by
  by_cases h1 : env.openFd < 0
  · rw [performScan_openFail sp env h1]; rfl
  · by_cases h2 : env.setSpeedRet = 0
    · by_cases h3 : env.setTimeoutRet = 0
      · rcases h with h | h | h <;> contradiction
      · rw [performScan_timeoutFail sp env h1 h2 h3]; rfl
    · rw [performScan_speedFail sp env h1 h2]; rfl

theorem pollsOf_performScan (sp : Nat) (env : BusEnv) :
    pollsOf (PerformScan sp env).events = [] := by
  by_cases h1 : env.openFd < 0
  · rw [performScan_openFail sp env h1]; rfl
  · by_cases h2 : env.setSpeedRet = 0
    · by_cases h3 : env.setTimeoutRet = 0
      · rw [performScan_completed sp env h1 h2 h3]
        simp only [pollsOf_append]
        rw [pollsOf_nil_of_logOrProbe _ topHeader_logOrProbe,
          pollsOf_nil_of_logOrProbe _ (grid_logOrProbe env env.openFd),
          pollsOf_nil_of_logOrProbe _ (summary_logOrProbe (scanRes env))]
        rfl
      · rw [performScan_timeoutFail sp env h1 h2 h3]; rfl
    · rw [performScan_speedFail sp env h1 h2]; rfl

theorem probedAddrs_performScan_completed (sp : Nat) (env : BusEnv) (h1 : ¬ env.openFd < 0)
    (h2 : env.setSpeedRet = 0) (h3 : env.setTimeoutRet = 0) :
    probedAddrs (PerformScan sp env).events = List.range' 1 127 := by
  rw [performScan_completed sp env h1 h2 h3]
  simp only [probedAddrs_append, probedAddrs_topHeader, probedAddrs_grid, probedAddrs_summary]
  rfl

theorem probedAddrs_performScan_abort (sp : Nat) (env : BusEnv)
    (h : env.openFd < 0 ∨ env.setSpeedRet ≠ 0 ∨ env.setTimeoutRet ≠ 0) :
    probedAddrs (PerformScan sp env).events = [] := by
  by_cases h1 : env.openFd < 0
  · rw [performScan_openFail sp env h1]; rfl
  · by_cases h2 : env.setSpeedRet = 0
    · by_cases h3 : env.setTimeoutRet = 0
      · rcases h with h | h | h <;> contradiction
      · rw [performScan_timeoutFail sp env h1 h2 h3]; rfl
    · rw [performScan_speedFail sp env h1 h2]; rfl

/-! ### Helper lemmas: `runScans` and `mainRun` -/

theorem runScans_nil (envs : Nat → BusEnv) (i : Nat) (fd : Int) :
    runScans envs [] i fd = ([], fd) := rfl

theorem runScans_cons (envs : Nat → BusEnv) (sp : Nat) (rest : List Nat) (i : Nat) (fd : Int) :
    runScans envs (sp :: rest) i fd
      = ((PerformScan sp (envs i)).events
           ++ (runScans envs rest (i + 1) (PerformScan sp (envs i)).fd).1,
         (runScans envs rest (i + 1) (PerformScan sp (envs i)).fd).2) := by
  simp [runScans]

theorem flagAtPoll_eq (w : World) : flagAtPoll w = (w.sigPhase == some 0) := by
  simp [flagAtPoll, InitPeripheralsAndHandlers]

theorem mainRun_term (cfg : Config) (w : World) (h : flagAtPoll w = true) :
    mainRun cfg w = ([Event.sigaction, Event.pollTerm true, Event.closeFd (-1)], 0) := by
  simp only [mainRun, h]
  rfl

theorem mainRun_go (cfg : Config) (w : World) (h : flagAtPoll w = false) :
    mainRun cfg w
      = ([Event.sigaction, Event.pollTerm false]
           ++ (runScans w.envs (enabledSpeeds cfg) 0 (-1)).1
           ++ [Event.closeFd (runScans w.envs (enabledSpeeds cfg) 0 (-1)).2], 0) := by
  simp only [mainRun, h]
  simp [InitPeripheralsAndHandlers, ClosePeripheralsAndHandlers, List.append_assoc]

/-! ### Helper lemmas: configuration-call extractors and descriptors -/

theorem speedSetsOf_append (l1 l2 : List Event) :
    speedSetsOf (l1 ++ l2) = speedSetsOf l1 ++ speedSetsOf l2 := by
  simp [speedSetsOf, List.filterMap_append]

theorem timeoutSetsOf_append (l1 l2 : List Event) :
    timeoutSetsOf (l1 ++ l2) = timeoutSetsOf l1 ++ timeoutSetsOf l2 := by
  simp [timeoutSetsOf, List.filterMap_append]

theorem speedSetsOf_nil_of_logOrProbe (l : List Event) (h : ∀ e ∈ l, LogOrProbe e) :
    speedSetsOf l = [] := by
  refine List.filterMap_eq_nil_iff.mpr fun e he => ?_
  rcases h e he with ⟨s, rfl⟩ | ⟨fd, a, r, rfl⟩ <;> rfl

theorem timeoutSetsOf_nil_of_logOrProbe (l : List Event) (h : ∀ e ∈ l, LogOrProbe e) :
    timeoutSetsOf l = [] := by
  refine List.filterMap_eq_nil_iff.mpr fun e he => ?_
  rcases h e he with ⟨s, rfl⟩ | ⟨fd, a, r, rfl⟩ <;> rfl

theorem speedSetsOf_performScan_completed (sp : Nat) (env : BusEnv) (h1 : ¬ env.openFd < 0)
    (h2 : env.setSpeedRet = 0) (h3 : env.setTimeoutRet = 0) :
    speedSetsOf (PerformScan sp env).events = [(sp, 0)] := by
  rw [performScan_completed sp env h1 h2 h3]
  simp only [speedSetsOf_append]
  rw [speedSetsOf_nil_of_logOrProbe _ topHeader_logOrProbe,
    speedSetsOf_nil_of_logOrProbe _ (grid_logOrProbe env env.openFd),
    speedSetsOf_nil_of_logOrProbe _ (summary_logOrProbe (scanRes env))]
  rfl

theorem timeoutSetsOf_performScan_completed (sp : Nat) (env : BusEnv) (h1 : ¬ env.openFd < 0)
    (h2 : env.setSpeedRet = 0) (h3 : env.setTimeoutRet = 0) :
    timeoutSetsOf (PerformScan sp env).events = [(I2C_BUS_TIMEOUT_MS, 0)] := by
  rw [performScan_completed sp env h1 h2 h3]
  simp only [timeoutSetsOf_append]
  rw [timeoutSetsOf_nil_of_logOrProbe _ topHeader_logOrProbe,
    timeoutSetsOf_nil_of_logOrProbe _ (grid_logOrProbe env env.openFd),
    timeoutSetsOf_nil_of_logOrProbe _ (summary_logOrProbe (scanRes env))]
  rfl

theorem performScan_fd (sp : Nat) (env : BusEnv) : (PerformScan sp env).fd = env.openFd := by
  by_cases h1 : env.openFd < 0
  · rw [performScan_openFail sp env h1]
  · by_cases h2 : env.setSpeedRet = 0
    · by_cases h3 : env.setTimeoutRet = 0
      · rw [performScan_completed sp env h1 h2 h3]
      · rw [performScan_timeoutFail sp env h1 h2 h3]
    · rw [performScan_speedFail sp env h1 h2]

/-! ### Helper lemmas: extractors over `runScans` -/

theorem pollsOf_runScans (envs : Nat → BusEnv) (l : List Nat) (i : Nat) (fd : Int) :
    pollsOf (runScans envs l i fd).1 = [] := by
  induction l generalizing i fd with
  | nil => rfl
  | cons sp rest ih => rw [runScans_cons]; simp [pollsOf_append, pollsOf_performScan, ih]

theorem length_opensOf_runScans (envs : Nat → BusEnv) (l : List Nat) (i : Nat) (fd : Int) :
    (opensOf (runScans envs l i fd).1).length = l.length := by
  induction l generalizing i fd with
  | nil => rfl
  | cons sp rest ih =>
    rw [runScans_cons]
    simp [opensOf_append, opensOf_performScan, ih]

/-! ### Claims -/

/-- Claim C2: for every address `a` in 1..127, if the 1-byte read transaction
succeeds (`I2CMaster_Read` returns a value other than -1) the scan records
`scanResult[a] = 1` (present), and if it fails it records `scanResult[a] = 0`
(absent); a per-address read failure never aborts the scan: every address in
1..127, `a` included, is still probed. -/
theorem claim_C2_probe_results (sp : Nat) (env : BusEnv) (h : ScanCompletes env)
    (a : Nat) (ha1 : 1 ≤ a) (ha2 : a ≤ 127) :
    (PerformScan sp env).result = some (scanRes env)
    ∧ scanRes env a = (if env.readRet a ≠ -1 then 1 else 0)
    ∧ a ∈ probedAddrs (PerformScan sp env).events := by
  obtain ⟨h1, h2, h3⟩ := h
  refine ⟨?_, ?_, ?_⟩
  · rw [performScan_completed sp env h1 h2 h3]
  · have hlt : a < 128 := by omega
    have h0 : a ≠ 0 := by omega
    simp [scanRes, cellVal, hlt, h0]
  · rw [probedAddrs_performScan_completed sp env h1 h2 h3, List.mem_range'_1]
    omega

/-- Witness for C2 at a concrete environment: descriptor 3, devices at 0x1A
and 0x50, probing address 0x1A records a detection. -/
theorem claim_C2_probe_results_witness :
    ScanCompletes envTwoDevices
    ∧ ((PerformScan I2C_BUS_SPEED_STANDARD envTwoDevices).result = some (scanRes envTwoDevices)
        ∧ scanRes envTwoDevices 26 = (if envTwoDevices.readRet 26 ≠ -1 then 1 else 0)
        ∧ 26 ∈ probedAddrs (PerformScan I2C_BUS_SPEED_STANDARD envTwoDevices).events) :=
  ⟨⟨by decide, rfl, rfl⟩, claim_C2_probe_results I2C_BUS_SPEED_STANDARD
      envTwoDevices ⟨by decide, rfl, rfl⟩ 26 (by decide) (by decide)⟩

/-- Claim C3: a full scan pass after successful open and configuration
probes every address 1 through 127 inclusive, each exactly once, in
ascending numeric order (the probe-address trace is literally the list
`[1, 2, ..., 127]`); the loop is total, so no input (reserved addresses
included) can crash it. -/
theorem claim_C3_full_range_ascending (sp : Nat) (env : BusEnv) (h : ScanCompletes env) :
    probedAddrs (PerformScan sp env).events = List.range' 1 127
    ∧ List.Pairwise (· < ·) (probedAddrs (PerformScan sp env).events)
    ∧ (∀ a : Nat, a ∈ probedAddrs (PerformScan sp env).events ↔ 1 ≤ a ∧ a ≤ 127) := by
  obtain ⟨h1, h2, h3⟩ := h
  have he := probedAddrs_performScan_completed sp env h1 h2 h3
  refine ⟨he, ?_, ?_⟩
  · rw [he]; decide
  · intro a
    rw [he, List.mem_range'_1]
    omega

/-- Witness for C3 at a concrete environment. -/
theorem claim_C3_full_range_ascending_witness :
    ScanCompletes (envOk 3)
    ∧ probedAddrs (PerformScan I2C_BUS_SPEED_FAST (envOk 3)).events = List.range' 1 127 :=
  ⟨⟨by decide, rfl, rfl⟩,
   (claim_C3_full_range_ascending I2C_BUS_SPEED_FAST (envOk 3) ⟨by decide, rfl, rfl⟩).1⟩

/-- Claim C4: address 0 is never probed (no `I2CMaster_Read` call targets
address 0), its `scanResult` entry is always 0, and its grid cell is
rendered with the distinct three-space not-applicable marker: the sequence
of grid-cell markers in the output is exactly one marker per address 0..127,
the one at address 0 is `"   "`, which differs from both the present and
the absent markers. -/
theorem claim_C4_address_zero (sp : Nat) (env : BusEnv) (h : ScanCompletes env) :
    0 ∉ probedAddrs (PerformScan sp env).events
    ∧ (PerformScan sp env).result = some (scanRes env)
    ∧ scanRes env 0 = 0
    ∧ markersOf (PerformScan sp env).events = (List.range 128).map (cellMarker env)
    ∧ cellMarker env 0 = "   "
    ∧ "   " ≠ STR_DETECTION ∧ "   " ≠ STR_NO_DETECTION := by
  obtain ⟨h1, h2, h3⟩ := h
  refine ⟨?_, ?_, rfl, ?_, rfl, by decide, by decide⟩
  · rw [probedAddrs_performScan_completed sp env h1 h2 h3]
    decide
  · rw [performScan_completed sp env h1 h2 h3]
  · rw [performScan_completed sp env h1 h2 h3]
    simp only [markersOf_append, markersOf_grid, markersOf_summary, markersOf_topHeader]
    have hb : ("---- I2C Scan at " == "   " || "---- I2C Scan at " == STR_DETECTION
        || "---- I2C Scan at " == STR_NO_DETECTION) = false := by decide
    have hpre : markersOf [Event.log "---- I2C Scan at ", Event.log (speedLabel sp),
        Event.openBus PROJECT_ISU2_I2C env.openFd, Event.setSpeed env.openFd sp 0,
        Event.setTimeout env.openFd I2C_BUS_TIMEOUT_MS 0] = [] := by
      show (["---- I2C Scan at ", speedLabel sp].filter fun s =>
        s == "   " || s == STR_DETECTION || s == STR_NO_DETECTION) = []
      rw [List.filter_cons_of_neg, List.filter_cons_of_neg, List.filter_nil]
      all_goals first
        | decide
        | simp [speedLabel_not_marker sp]
    rw [hpre, show markersOf [Event.closeFd env.openFd] = [] from rfl]
    simp

/-- Witness for C4 at a concrete environment. -/
theorem claim_C4_address_zero_witness :
    ScanCompletes (envOk 3)
    ∧ 0 ∉ probedAddrs (PerformScan I2C_BUS_SPEED_FAST_PLUS (envOk 3)).events
    ∧ scanRes (envOk 3) 0 = 0 :=
  ⟨⟨by decide, rfl, rfl⟩,
   (claim_C4_address_zero I2C_BUS_SPEED_FAST_PLUS (envOk 3) ⟨by decide, rfl, rfl⟩).1,
   (claim_C4_address_zero I2C_BUS_SPEED_FAST_PLUS (envOk 3) ⟨by decide, rfl, rfl⟩).2.2.1⟩

/-- Claim C5: the printed summary lists exactly the addresses whose
`scanResult` entry is 1 (present), in ascending order with no duplicates
(the listed addresses are strictly increasing), and when that set is empty
the summary prints the explicit `NO DEVICES DETECTED` message instead. -/
theorem claim_C5_summary_exact (sp : Nat) (env : BusEnv) (h : ScanCompletes env) :
    (∃ pre, (PerformScan sp env).events
        = pre ++ [Event.log "\n *** I2C devices detected at: "]
            ++ (listedAddrs (scanRes env)).map (fun a => Event.log (hex02 a ++ " "))
            ++ (if listedAddrs (scanRes env) = [] then [Event.log "NO DEVICES DETECTED"] else [])
            ++ [Event.log "\n\n", Event.closeFd env.openFd])
    ∧ List.Pairwise (· < ·) (listedAddrs (scanRes env))
    ∧ (∀ a : Nat, a ∈ listedAddrs (scanRes env) ↔ 1 ≤ a ∧ a ≤ 127 ∧ scanRes env a = 1) := by
  obtain ⟨h1, h2, h3⟩ := h
  refine ⟨?_, ?_, ?_⟩
  · refine ⟨[Event.log "---- I2C Scan at ", Event.log (speedLabel sp),
      Event.openBus PROJECT_ISU2_I2C env.openFd, Event.setSpeed env.openFd sp 0,
      Event.setTimeout env.openFd I2C_BUS_TIMEOUT_MS 0] ++ topHeaderEvents
      ++ gridRows.flatMap (rowChunk env env.openFd), ?_⟩
    rw [performScan_completed sp env h1 h2 h3, summaryEvents_eq]
    simp [List.append_assoc]
  · exact List.Pairwise.sublist (List.filter_sublist _) (by decide)
  · intro a
    simp only [listedAddrs, List.mem_filter, List.mem_range'_1, bne_iff_ne, ne_eq]
    constructor
    · rintro ⟨⟨hga, hla⟩, hv⟩
      refine ⟨hga, by omega, ?_⟩
      have hlt : a < 128 := by omega
      have h0 : ¬ a = 0 := by omega
      simp only [scanRes, hlt, if_true, cellVal, h0, if_false] at hv ⊢
      split_ifs at hv ⊢ <;> simp_all
    · rintro ⟨hga, hla, hv⟩
      refine ⟨⟨hga, by omega⟩, ?_⟩
      rw [hv]
      decide

/-- Witness for C5 at a concrete environment: devices at 0x1A and 0x50 give
the summary list `[0x1A, 0x50]`, strictly ascending. -/
theorem claim_C5_summary_exact_witness :
    ScanCompletes envTwoDevices
    ∧ listedAddrs (scanRes envTwoDevices) = [26, 80]
    ∧ List.Pairwise (· < ·) (listedAddrs (scanRes envTwoDevices)) :=
  ⟨⟨by decide, rfl, rfl⟩, by decide,
   (claim_C5_summary_exact I2C_BUS_SPEED_STANDARD envTwoDevices ⟨by decide, rfl, rfl⟩).2.1⟩

/-- A string whose length differs from 3 is none of the three grid-cell
markers. -/
theorem not_marker_of_length_ne (s : String) (hlen : s.length ≠ 3) :
    (s == "   " || s == STR_DETECTION || s == STR_NO_DETECTION) = false := by
  have h1 : (s == "   ") = false := beq_eq_false_iff_ne.mpr fun h => hlen (h ▸ rfl)
  have h2 : (s == STR_DETECTION) = false := beq_eq_false_iff_ne.mpr fun h => hlen (h ▸ rfl)
  have h3 : (s == STR_NO_DETECTION) = false := beq_eq_false_iff_ne.mpr fun h => hlen (h ▸ rfl)
  simp [h1, h2, h3]

theorem openErrMsg_not_marker (env : BusEnv) :
    (openErrMsg env == "   " || openErrMsg env == STR_DETECTION
      || openErrMsg env == STR_NO_DETECTION) = false := by
  refine not_marker_of_length_ne _ ?_
  have hE : ("ERROR: I2CMaster_Open: errno=" : String).length = 29 := rfl
  have hp : (" (" : String).length = 2 := rfl
  have hc : (")\n" : String).length = 2 := rfl
  simp [openErrMsg, String.length_append, hE, hp, hc]
  omega

theorem speedErrMsg_not_marker (env : BusEnv) :
    (speedErrMsg env == "   " || speedErrMsg env == STR_DETECTION
      || speedErrMsg env == STR_NO_DETECTION) = false := by
  refine not_marker_of_length_ne _ ?_
  have hE : ("ERROR: Failed to set I2C bus speed: errno=" : String).length = 42 := rfl
  have hp : (" (" : String).length = 2 := rfl
  have hc : (")\n" : String).length = 2 := rfl
  simp [speedErrMsg, String.length_append, hE, hp, hc]
  omega

theorem timeoutErrMsg_not_marker (env : BusEnv) :
    (timeoutErrMsg env == "   " || timeoutErrMsg env == STR_DETECTION
      || timeoutErrMsg env == STR_NO_DETECTION) = false := by
  refine not_marker_of_length_ne _ ?_
  have hE : ("ERROR: I2CMaster_SetTimeout: errno=" : String).length = 35 := rfl
  have hp : (" (" : String).length = 2 := rfl
  have hc : (")\n" : String).length = 2 := rfl
  simp [timeoutErrMsg, String.length_append, hE, hp, hc]
  omega

/-- Claim C6: if opening the bus fails, or setting the bus speed or the
per-transaction timeout fails, the scan pass aborts entirely: no address is
probed, the only three logged lines are the banner, the speed label and one
error message (so neither the grid header, nor any grid cell, nor the
summary is printed), the error message is one of the three formats that
embed the system error code and its description, and neither the open nor a
configuration call is retried (exactly one open and at most one call of each
configuration operation appear in the trace). -/
theorem claim_C6_abort_on_config_failure (sp : Nat) (env : BusEnv)
    (h : env.openFd < 0 ∨ env.setSpeedRet ≠ 0 ∨ env.setTimeoutRet ≠ 0) :
    (PerformScan sp env).result = none
    ∧ probedAddrs (PerformScan sp env).events = []
    ∧ markersOf (PerformScan sp env).events = []
    ∧ (∃ msg, logsOf (PerformScan sp env).events = ["---- I2C Scan at ", speedLabel sp, msg]
        ∧ (msg = openErrMsg env ∨ msg = speedErrMsg env ∨ msg = timeoutErrMsg env))
    ∧ opensOf (PerformScan sp env).events = [env.openFd]
    ∧ (speedSetsOf (PerformScan sp env).events).length ≤ 1
    ∧ (timeoutSetsOf (PerformScan sp env).events).length ≤ 1 := by
  by_cases h1 : env.openFd < 0
  · rw [performScan_openFail sp env h1]
    refine ⟨rfl, rfl, ?_, ⟨openErrMsg env, rfl, Or.inl rfl⟩, rfl, Nat.zero_le 1, Nat.zero_le 1⟩
    show (["---- I2C Scan at ", speedLabel sp, openErrMsg env].filter fun s =>
      s == "   " || s == STR_DETECTION || s == STR_NO_DETECTION) = []
    rw [List.filter_cons_of_neg, List.filter_cons_of_neg, List.filter_cons_of_neg,
      List.filter_nil]
    all_goals first
      | decide
      | simp [speedLabel_not_marker sp, openErrMsg_not_marker env]
  · by_cases h2 : env.setSpeedRet = 0
    · by_cases h3 : env.setTimeoutRet = 0
      · rcases h with h | h | h <;> contradiction
      · rw [performScan_timeoutFail sp env h1 h2 h3]
        refine ⟨rfl, rfl, ?_, ⟨timeoutErrMsg env, rfl, Or.inr (Or.inr rfl)⟩, rfl,
          Nat.le_refl 1, Nat.le_refl 1⟩
        show (["---- I2C Scan at ", speedLabel sp, timeoutErrMsg env].filter fun s =>
          s == "   " || s == STR_DETECTION || s == STR_NO_DETECTION) = []
        rw [List.filter_cons_of_neg, List.filter_cons_of_neg, List.filter_cons_of_neg,
          List.filter_nil]
        all_goals first
          | decide
          | simp [speedLabel_not_marker sp, timeoutErrMsg_not_marker env]
    · rw [performScan_speedFail sp env h1 h2]
      refine ⟨rfl, rfl, ?_, ⟨speedErrMsg env, rfl, Or.inr (Or.inl rfl)⟩, rfl,
        Nat.le_refl 1, Nat.zero_le 1⟩
      show (["---- I2C Scan at ", speedLabel sp, speedErrMsg env].filter fun s =>
        s == "   " || s == STR_DETECTION || s == STR_NO_DETECTION) = []
      rw [List.filter_cons_of_neg, List.filter_cons_of_neg, List.filter_cons_of_neg,
        List.filter_nil]
      all_goals first
        | decide
        | simp [speedLabel_not_marker sp, speedErrMsg_not_marker env]

/-- Witness for C6: the open fails with `errno` 2. -/
theorem claim_C6_abort_on_config_failure_witness :
    (envOpenFail.openFd < 0 ∨ envOpenFail.setSpeedRet ≠ 0 ∨ envOpenFail.setTimeoutRet ≠ 0)
    ∧ (PerformScan I2C_BUS_SPEED_FAST_PLUS envOpenFail).result = none
    ∧ probedAddrs (PerformScan I2C_BUS_SPEED_FAST_PLUS envOpenFail).events = [] :=
  ⟨Or.inl (by decide),
   (claim_C6_abort_on_config_failure I2C_BUS_SPEED_FAST_PLUS envOpenFail (Or.inl (by decide))).1,
   (claim_C6_abort_on_config_failure I2C_BUS_SPEED_FAST_PLUS envOpenFail
     (Or.inl (by decide))).2.1⟩

/-- Claim C7: `main` returns 0 on every execution: whatever the termination
signal timing, the driver's behavior and the compile-time speed selection,
the process exit status is 0. -/
theorem claim_C7_exit_status_zero : ∀ (cfg : Config) (w : World), (mainRun cfg w).2 = 0 := by
  intro cfg w
  cases hfp : flagAtPoll w
  · rw [mainRun_go cfg w hfp]
  · rw [mainRun_term cfg w hfp]

/-- A completed pass at speed `sp` is a labeled scan cycle with the label
the `switch` prints for `sp`. -/
theorem labeledScanCycle_of_completed (sp : Nat) (env : BusEnv) (h : ScanCompletes env) :
    LabeledScanCycle sp env (speedLabel sp) := by
  obtain ⟨h1, h2, h3⟩ := h
  refine ⟨⟨[Event.openBus PROJECT_ISU2_I2C env.openFd, Event.setSpeed env.openFd sp 0,
      Event.setTimeout env.openFd I2C_BUS_TIMEOUT_MS 0] ++ topHeaderEvents
      ++ gridRows.flatMap (rowChunk env env.openFd) ++ summaryEvents (scanRes env)
      ++ [Event.closeFd env.openFd], ?_⟩,
    opensOf_performScan sp env,
    speedSetsOf_performScan_completed sp env h1 h2 h3,
    timeoutSetsOf_performScan_completed sp env h1 h2 h3,
    probedAddrs_performScan_completed sp env h1 h2 h3,
    closesOf_performScan_completed sp env h1 h2 h3⟩
  rw [performScan_completed sp env h1 h2 h3]
  simp [List.append_assoc]

/-- Claim C8: in the committed build configuration (all three
`ENABLE_SCAN_BUS_SPEED_*` directives defined) `main` runs the full scan at
the three fixed speeds in sequence — 1 MHz, then 400 kHz, then 100 kHz —
each as an independent open/configure/probe-all/close cycle printing its own
labeled section; the set of speeds comes only from the compile-time
configuration value, not from any runtime input (`main` ignores its
arguments, which the model therefore does not even carry). -/
theorem claim_C8_multi_speed_sections (w : World)
    (hflag : flagAtPoll w = false)
    (h0 : ScanCompletes (w.envs 0)) (h1 : ScanCompletes (w.envs 1))
    (h2 : ScanCompletes (w.envs 2)) :
    enabledSpeeds sourceConfig
      = [I2C_BUS_SPEED_FAST_PLUS, I2C_BUS_SPEED_FAST, I2C_BUS_SPEED_STANDARD]
    ∧ (mainRun sourceConfig w).1
        = [Event.sigaction, Event.pollTerm false]
          ++ (PerformScan I2C_BUS_SPEED_FAST_PLUS (w.envs 0)).events
          ++ (PerformScan I2C_BUS_SPEED_FAST (w.envs 1)).events
          ++ (PerformScan I2C_BUS_SPEED_STANDARD (w.envs 2)).events
          ++ [Event.closeFd (w.envs 2).openFd]
    ∧ LabeledScanCycle I2C_BUS_SPEED_FAST_PLUS (w.envs 0) "1 MHz\n"
    ∧ LabeledScanCycle I2C_BUS_SPEED_FAST (w.envs 1) "400 kHz\n"
    ∧ LabeledScanCycle I2C_BUS_SPEED_STANDARD (w.envs 2) "100 kHz\n" := by
  refine ⟨rfl, ?_,
    labeledScanCycle_of_completed I2C_BUS_SPEED_FAST_PLUS (w.envs 0) h0,
    labeledScanCycle_of_completed I2C_BUS_SPEED_FAST (w.envs 1) h1,
    labeledScanCycle_of_completed I2C_BUS_SPEED_STANDARD (w.envs 2) h2⟩
  rw [mainRun_go sourceConfig w hflag,
    show enabledSpeeds sourceConfig
      = [I2C_BUS_SPEED_FAST_PLUS, I2C_BUS_SPEED_FAST, I2C_BUS_SPEED_STANDARD] from rfl,
    runScans_cons, runScans_cons, runScans_cons, runScans_nil]
  simp [performScan_fd, List.append_assoc]

/-- Witness for C8 at a concrete world. -/
theorem claim_C8_multi_speed_sections_witness :
    flagAtPoll wNoSignal = false
    ∧ LabeledScanCycle I2C_BUS_SPEED_FAST_PLUS (wNoSignal.envs 0) "1 MHz\n" :=
  ⟨rfl, (claim_C8_multi_speed_sections wNoSignal rfl ⟨by decide, rfl, rfl⟩
    ⟨by decide, rfl, rfl⟩ ⟨by decide, rfl, rfl⟩).2.2.1⟩

theorem pollsOf_cons_sigaction (l : List Event) :
    pollsOf (Event.sigaction :: l) = pollsOf l := rfl

theorem pollsOf_cons_pollTerm (b : Bool) (l : List Event) :
    pollsOf (Event.pollTerm b :: l) = b :: pollsOf l := rfl

theorem opensOf_cons_sigaction (l : List Event) :
    opensOf (Event.sigaction :: l) = opensOf l := rfl

theorem opensOf_cons_pollTerm (b : Bool) (l : List Event) :
    opensOf (Event.pollTerm b :: l) = opensOf l := rfl

/-- Claim C10: `InitPeripheralsAndHandlers` returns 0 unconditionally, so
the startup branch of `main` that would set the termination flag is
unreachable; unless the external termination signal arrives before the
single flag check, the flag reads false there and every compile-time-enabled
scan pass is attempted (one `I2CMaster_Open` call per enabled speed appears
in the trace). -/
theorem claim_C10_init_unreachable_branch :
    InitPeripheralsAndHandlers.2 = 0
    ∧ (∀ w : World, w.sigPhase ≠ some 0 → flagAtPoll w = false)
    ∧ (∀ (cfg : Config) (w : World), w.sigPhase ≠ some 0 →
        pollsOf (mainRun cfg w).1 = [false]
        ∧ (opensOf (mainRun cfg w).1).length = (enabledSpeeds cfg).length) := by
  refine ⟨rfl, ?_, ?_⟩
  · intro w hw
    rw [flagAtPoll_eq]
    exact beq_eq_false_iff_ne.mpr hw
  · intro cfg w hw
    have hf : flagAtPoll w = false := by
      rw [flagAtPoll_eq]; exact beq_eq_false_iff_ne.mpr hw
    constructor
    · rw [mainRun_go cfg w hf]
      simp [pollsOf_append, pollsOf_runScans, pollsOf_cons_sigaction, pollsOf_cons_pollTerm,
        show ∀ x : Int, pollsOf [Event.closeFd x] = [] from fun x => rfl]
    · rw [mainRun_go cfg w hf]
      simp [opensOf_append, length_opensOf_runScans, opensOf_cons_sigaction,
        opensOf_cons_pollTerm,
        show ∀ x : Int, opensOf [Event.closeFd x] = [] from fun x => rfl]

/-- Witness for C10 at a concrete world with no signal. -/
theorem claim_C10_init_unreachable_branch_witness :
    pollsOf (mainRun sourceConfig wNoSignal).1 = [false]
    ∧ (opensOf (mainRun sourceConfig wNoSignal).1).length
        = (enabledSpeeds sourceConfig).length :=
  claim_C10_init_unreachable_branch.2.2 sourceConfig wNoSignal (by decide)

/-- Counterexample to C9's last clause at a concrete execution: in
`wSigAfterPoll` the termination flag becomes set after the single poll but
before any scan phase has started (every top-level scan phase is still
not-yet-started at that moment), yet all three scan phases begin — the trace
contains one `I2CMaster_Open` call per enabled speed.  The code polls the
flag only once, before the first scan, so a flag set later never prevents
the remaining phases from starting. -/
theorem claim_C9_between_scans_counterexample :
    wSigAfterPoll.sigPhase = some 1
    ∧ flagAtPoll wSigAfterPoll = false
    ∧ (opensOf (mainRun sourceConfig wSigAfterPoll).1).length = 3
    ∧ (enabledSpeeds sourceConfig).length = 3 := by
  refine ⟨rfl, rfl, ?_, by decide⟩
  rw [mainRun_go sourceConfig wSigAfterPoll rfl]
  simp [opensOf_append, length_opensOf_runScans, opensOf_cons_sigaction, opensOf_cons_pollTerm,
    show ∀ x : Int, opensOf [Event.closeFd x] = [] from fun x => rfl]
  decide

/-- Claim C9 as amended: the termination flag is polled exactly once, at
top level before any scan phase and never between individual address probes
or between scan phases; if the flag is set at that single poll no scan phase
begins; and the entire execution after the poll is independent of when the
flag becomes set later, so a scan pass that has started always runs to
completion and later phases still begin. -/
theorem claim_C9_poll_once_top_level :
    (∀ (cfg : Config) (w : World), pollsOf (mainRun cfg w).1 = [flagAtPoll w])
    ∧ (∀ (cfg : Config) (w : World), ∃ rest,
        (mainRun cfg w).1 = [Event.sigaction, Event.pollTerm (flagAtPoll w)] ++ rest)
    ∧ (∀ (cfg : Config) (w : World), flagAtPoll w = true →
        probedAddrs (mainRun cfg w).1 = [] ∧ opensOf (mainRun cfg w).1 = [])
    ∧ (∀ (cfg : Config) (w : World) (k : Nat), w.sigPhase = some k → k ≠ 0 →
        mainRun cfg w = mainRun cfg { w with sigPhase := none }) := by
  refine ⟨?_, ?_, ?_, ?_⟩
  · intro cfg w
    cases hfp : flagAtPoll w
    · rw [mainRun_go cfg w hfp]
      simp [pollsOf_append, pollsOf_runScans, pollsOf_cons_sigaction, pollsOf_cons_pollTerm,
        show ∀ x : Int, pollsOf [Event.closeFd x] = [] from fun x => rfl]
    · rw [mainRun_term cfg w hfp]
      rfl
  · intro cfg w
    cases hfp : flagAtPoll w
    · rw [mainRun_go cfg w hfp]
      exact ⟨_, rfl⟩
    · rw [mainRun_term cfg w hfp]
      exact ⟨[Event.closeFd (-1)], rfl⟩
  · intro cfg w hfp
    rw [mainRun_term cfg w hfp]
    exact ⟨rfl, rfl⟩
  · intro cfg w k hsig hk
    have hf : flagAtPoll w = false := by
      rw [flagAtPoll_eq, hsig]
      exact beq_eq_false_iff_ne.mpr (by simpa using hk)
    have hf2 : flagAtPoll { w with sigPhase := none } = false := rfl
    rw [mainRun_go cfg w hf, mainRun_go cfg { w with sigPhase := none } hf2]

/-- Witness for the amended C9 at concrete worlds. -/
theorem claim_C9_poll_once_top_level_witness :
    (probedAddrs (mainRun sourceConfig wSigAtPoll).1 = []
      ∧ opensOf (mainRun sourceConfig wSigAtPoll).1 = [])
    ∧ mainRun sourceConfig wSigAfterPoll
        = mainRun sourceConfig { wSigAfterPoll with sigPhase := none } :=
  ⟨claim_C9_poll_once_top_level.2.2.1 sourceConfig wSigAtPoll rfl,
   claim_C9_poll_once_top_level.2.2.2 sourceConfig wSigAfterPoll 1 rfl (by decide)⟩

theorem closesOf_cons_sigaction (l : List Event) :
    closesOf (Event.sigaction :: l) = closesOf l := rfl

theorem closesOf_cons_pollTerm (b : Bool) (l : List Event) :
    closesOf (Event.pollTerm b :: l) = closesOf l := rfl

theorem succOpens_cons_sigaction (l : List Event) :
    succOpens (Event.sigaction :: l) = succOpens l := rfl

theorem succOpens_cons_pollTerm (b : Bool) (l : List Event) :
    succOpens (Event.pollTerm b :: l) = succOpens l := rfl

/-- Claim C1 evaluated on the code at a concrete execution (`leakWorld`):
the 1 MHz pass opens descriptor 3 successfully and then fails to set the bus
speed, the 400 kHz and 100 kHz passes complete on descriptors 5 and 6.  The
successful opens return 3, 5 and 6, but the `close` calls are `[5, 6, 6]`:
descriptor 3 (whose configuration failed right after a successful open) is
never closed because `PerformScan` returns early without closing, and
descriptor 6 is closed twice (once at the end of `PerformScan`, once again
by `ClosePeripheralsAndHandlers` on the stale global).  So the bus-close
operation is not invoked exactly once per successful open. -/
theorem claim_C1_close_count_mismatch :
    succOpens (mainRun sourceConfig leakWorld).1 = [3, 5, 6]
    ∧ closesOf (mainRun sourceConfig leakWorld).1 = [5, 6, 6]
    ∧ (succOpens (mainRun sourceConfig leakWorld).1).count 3 = 1
    ∧ (closesOf (mainRun sourceConfig leakWorld).1).count 3 = 0
    ∧ (closesOf (mainRun sourceConfig leakWorld).1).count 6 = 2 := by
  have hexp : (mainRun sourceConfig leakWorld).1
      = Event.sigaction :: Event.pollTerm false ::
        ((PerformScan I2C_BUS_SPEED_FAST_PLUS envCfgFail).events
          ++ ((PerformScan I2C_BUS_SPEED_FAST (envOk 5)).events
            ++ ((PerformScan I2C_BUS_SPEED_STANDARD (envOk 6)).events ++ [])
          ))
        ++ [Event.closeFd (PerformScan I2C_BUS_SPEED_STANDARD (envOk 6)).fd] := by
    rw [mainRun_go sourceConfig leakWorld rfl,
      show enabledSpeeds sourceConfig
        = [I2C_BUS_SPEED_FAST_PLUS, I2C_BUS_SPEED_FAST, I2C_BUS_SPEED_STANDARD] from rfl,
      runScans_cons, runScans_cons, runScans_cons, runScans_nil]
    rfl
  have habort : envCfgFail.openFd < 0 ∨ envCfgFail.setSpeedRet ≠ 0
      ∨ envCfgFail.setTimeoutRet ≠ 0 := Or.inr (Or.inl (by decide))
  have hopen : succOpens (mainRun sourceConfig leakWorld).1 = [3, 5, 6] := by
    rw [hexp]
    simp only [List.cons_append]
    rw [succOpens_cons_sigaction, succOpens_cons_pollTerm]
    simp only [succOpens_append, succOpens_performScan]
    rfl
  have hclose : closesOf (mainRun sourceConfig leakWorld).1 = [5, 6, 6] := by
    rw [hexp]
    simp only [List.cons_append]
    rw [closesOf_cons_sigaction, closesOf_cons_pollTerm]
    simp only [closesOf_append,
      closesOf_performScan_abort I2C_BUS_SPEED_FAST_PLUS envCfgFail habort,
      closesOf_performScan_completed I2C_BUS_SPEED_FAST (envOk 5) (by decide) rfl rfl,
      closesOf_performScan_completed I2C_BUS_SPEED_STANDARD (envOk 6) (by decide) rfl rfl,
      performScan_fd]
    rfl
  refine ⟨hopen, hclose, ?_, ?_, ?_⟩
  · rw [hopen]; decide
  · rw [hclose]; decide
  · rw [hclose]; decide
